import Mathlib

/-!
Shallow embedding of the credit-sales ledger of the Flet_Base repository
(`src/database/db_service.py`, `src/models/*.py`, and the payment-allocation
loop of `src/views/clientes_page.py`).

Modelling conventions:
* Money amounts (Python `float`) are modelled as exact rationals `ℚ`.
* Timestamps (`datetime.now()`) are modelled as an `Int` parameter `now`
  threaded into every operation that reads the clock.
* The SQL store (one `Session` against the relational DB) is a `Store`
  record of row lists plus auto-increment counters; `session.get(Model, id)`
  is a first-match lookup by id, in-place row mutation is a map over the
  row list keyed by id, `session.delete` is a filter.
* Python exceptions raised before any `session.add` are modelled with
  `Except`: an `.error` result produces no successor store at all.
-/

namespace FletBase

/-- One line item of a sale (`models/venta.py`, `ItemVenta` / the JSON dicts
stored in `Venta.productos`): subtotal, quantity, optional product reference
and the flag telling whether it affects stock. -/
structure ItemVenta where
  producto_id : Option Nat
  precio_unitario : ℚ
  cantidad : ℚ
  subtotal : ℚ
  descontar_stock : Bool
deriving DecidableEq, Repr

/-- `models/cliente.py`: customer with credit limit and cached running debt. -/
structure Cliente where
  id : Nat
  nombre : String
  limite_credito : ℚ
  deuda_total : ℚ
  activo : Bool
  fecha_actualizacion : Option Int
deriving DecidableEq, Repr

/-- `models/producto.py` (only the fields the ledger operations touch). -/
structure Producto where
  id : Nat
  cantidad_stock : ℚ
  fecha_actualizacion : Option Int
deriving DecidableEq, Repr

/-- `models/venta.py`, class `Venta`: a sale, possibly on credit (`es_fiado`),
with cached paid amount (`abonado`) and pending balance (`resto`). -/
structure Venta where
  id : Nat
  fecha : Int
  cliente_id : Option Nat
  productos : List ItemVenta
  total : ℚ
  es_fiado : Bool
  abonado : ℚ
  resto : ℚ
  pagado_completamente : Bool
  fecha_pago_completo : Option Int
deriving DecidableEq, Repr

/-- `models/abono.py`, class `Abono`: one recorded payment against a sale. -/
structure Abono where
  id : Nat
  venta_id : Nat
  monto : ℚ
  fecha : Int
deriving DecidableEq, Repr

/-- The relational store: the four tables plus the auto-increment id
counters the database assigns on insert. -/
structure Store where
  clientes : List Cliente
  productos : List Producto
  ventas : List Venta
  abonos : List Abono
  next_venta_id : Nat
  next_abono_id : Nat
deriving DecidableEq, Repr

/-- `session.get(Cliente, id)`. -/
def getCliente (s : Store) (cid : Nat) : Option Cliente :=
  s.clientes.find? (fun c => c.id == cid)

/-- `session.get(Producto, id)`. -/
def getProducto (s : Store) (pid : Nat) : Option Producto :=
  s.productos.find? (fun p => p.id == pid)

/-- `session.get(Venta, id)`. -/
def getVenta (s : Store) (vid : Nat) : Option Venta :=
  s.ventas.find? (fun v => v.id == vid)

/-- `session.get(Abono, id)`. -/
def getAbono (s : Store) (aid : Nat) : Option Abono :=
  s.abonos.find? (fun a => a.id == aid)

/-- In-place mutation of the customer row with the given id. -/
def updateCliente (s : Store) (cid : Nat) (f : Cliente → Cliente) : Store :=
  { s with clientes := s.clientes.map (fun c => if c.id == cid then f c else c) }

/-- In-place mutation of the product row with the given id. -/
def updateProducto (s : Store) (pid : Nat) (f : Producto → Producto) : Store :=
  { s with productos := s.productos.map (fun p => if p.id == pid then f p else p) }

/-- In-place mutation of the sale row with the given id. -/
def updateVenta (s : Store) (vid : Nat) (f : Venta → Venta) : Store :=
  { s with ventas := s.ventas.map (fun v => if v.id == vid then f v else v) }

/-- Stable insertion into a list sorted by the boolean comparator `le`
(`le x y = true` means `x` may come before `y`). -/
def insertOrdered {α : Type} (le : α → α → Bool) (x : α) : List α → List α
  | [] => [x]
  | y :: ys => if le x y then x :: y :: ys else y :: insertOrdered le x ys

/-- Sorting used to model SQL `ORDER BY` (the order among ties is not
specified by SQL; this model fixes one deterministic order). -/
def orderBy {α : Type} (le : α → α → Bool) (l : List α) : List α :=
  l.foldr (insertOrdered le) []

/-- `Venta.calcular_totales` (`models/venta.py`, lines 98-105): recomputes
`total` from the line items, `resto = total - abonado`,
`pagado_completamente = resto <= 0`, and stamps `fecha_pago_completo` the
first time the sale becomes fully paid. -/
def Venta.calcular_totales (now : Int) (v : Venta) : Venta :=
  let total := (v.productos.map ItemVenta.subtotal).sum
  let resto := total - v.abonado
  { v with
    total := total
    resto := resto
    pagado_completamente := decide (resto ≤ 0)
    fecha_pago_completo :=
      if resto ≤ 0 ∧ v.fecha_pago_completo = none then some now
      else v.fecha_pago_completo }

/-- `Venta.get_items_con_stock`: the line items flagged to affect stock. -/
def Venta.get_items_con_stock (v : Venta) : List ItemVenta :=
  v.productos.filter (fun i => i.descontar_stock)

namespace ClienteRepository

/-- `ClienteRepository.actualizar_deuda`: adds `monto` (possibly negative)
to the customer's cached `deuda_total`, if the customer exists. -/
def actualizar_deuda (s : Store) (cid : Nat) (monto : ℚ) (now : Int) : Store :=
  match getCliente s cid with
  | none => s
  | some _ =>
      updateCliente s cid (fun c =>
        { c with deuda_total := c.deuda_total + monto
                 fecha_actualizacion := some now })

/-- `ClienteRepository.listar_activos`: active customers ordered by name. -/
def listar_activos (s : Store) : List Cliente :=
  orderBy (fun a b => decide (a.nombre ≤ b.nombre)) (s.clientes.filter (fun c => c.activo))

/-- `ClienteRepository.calcular_deuda_real`: sums the `resto` field of the
customer's pending credit sales.  Note: this reads the cached per-sale
`resto` fields, it does not recompute them from the `abonos` table. -/
def calcular_deuda_real (s : Store) (cid : Nat) : ℚ :=
  ((s.ventas.filter (fun v =>
      v.cliente_id == some cid && v.es_fiado && !v.pagado_completamente)).map
    Venta.resto).sum

end ClienteRepository

namespace VentaRepository

/-- `VentaRepository.calcular_abonado`: ledger sum of the payments recorded
against the given sale. -/
def calcular_abonado (s : Store) (vid : Nat) : ℚ :=
  ((s.abonos.filter (fun a => a.venta_id == vid)).map Abono.monto).sum

/-- `VentaRepository.listar_fiados_cliente`: the customer's pending credit
sales, ordered by `Venta.fecha.desc()` — most recent date first. -/
def listar_fiados_cliente (s : Store) (cid : Nat) : List Venta :=
  orderBy (fun a b => decide (b.fecha ≤ a.fecha))
    (s.ventas.filter (fun v =>
      v.cliente_id == some cid && v.es_fiado && !v.pagado_completamente))

end VentaRepository

namespace ProductoRepository

/-- `ProductoRepository.descontar_stock`: decrements a product's stock. -/
def descontar_stock (s : Store) (pid : Nat) (cantidad : ℚ) (now : Int) : Store :=
  match getProducto s pid with
  | none => s
  | some _ =>
      updateProducto s pid (fun p =>
        { p with cantidad_stock := p.cantidad_stock - cantidad
                 fecha_actualizacion := some now })

end ProductoRepository

/-- Helper shared by the repository operations: the Python fragment
`if venta.cliente_id: ClienteRepository.actualizar_deuda(session, cid, monto)`. -/
def actualizarDeudaOpcional (s : Store) (cliente_id : Option Nat) (monto : ℚ) (now : Int) : Store :=
  match cliente_id with
  | some cid => ClienteRepository.actualizar_deuda s cid monto now
  | none => s

/-- The foreign-key violation the Postgres backend raises at commit when a
deletion would orphan referencing rows: `abonos.venta_id → ventas.id` is a
declared foreign key with the default NO ACTION and no cascade
(`models/abono.py` line 16), so deleting a sale that still has payment rows
fails and the transaction rolls back. -/
inductive FkViolation where
  | abonosVentaId (venta_id : Nat)
deriving DecidableEq, Repr

/-- The error cases of `AbonoRepository.crear` (Python raises `ValueError`;
the over-payment case carries the actual pending balance in its message). -/
inductive AbonoError where
  | ventaNoEncontrada (venta_id : Nat)
  | soloVentasFiadas
  | montoNoPositivo
  | excedeRestoPendiente (monto resto_pendiente : ℚ)
deriving DecidableEq, Repr

namespace AbonoRepository

/-- `AbonoRepository.crear` (`db_service.py`, lines 353-394): validates the
sale exists, is a credit sale, the amount is positive and does not exceed
the pending balance recomputed from the `abonos` ledger; then inserts the
payment, resets the sale's cached `abonado` to ledger-sum + amount,
recomputes totals and decreases the customer's cached debt.
All validations happen before any write, so an `.error` result leaves the
caller's store untouched by construction. -/
def crear (s : Store) (venta_id : Nat) (monto : ℚ) (now : Int) :
    Except AbonoError (Store × Abono) :=
  match getVenta s venta_id with
  | none => .error (.ventaNoEncontrada venta_id)
  | some venta =>
    if !venta.es_fiado then .error .soloVentasFiadas
    else if monto ≤ 0 then .error .montoNoPositivo
    else
      let total_abonado_actual := VentaRepository.calcular_abonado s venta_id
      let resto_pendiente := venta.total - total_abonado_actual
      if resto_pendiente < monto then
        .error (.excedeRestoPendiente monto resto_pendiente)
      else
        let abono : Abono := ⟨s.next_abono_id, venta_id, monto, now⟩
        let s1 : Store :=
          { s with abonos := s.abonos ++ [abono]
                   next_abono_id := s.next_abono_id + 1 }
        let venta2 := Venta.calcular_totales now { venta with abonado := total_abonado_actual + monto }
        let s2 := updateVenta s1 venta_id (fun _ => venta2)
        let s3 := actualizarDeudaOpcional s2 venta.cliente_id (-monto) now
        .ok (s3, abono)

/-- `AbonoRepository.eliminar` (`db_service.py`, lines 407-431): removes a
payment, decrements the sale's cached `abonado`, recomputes totals and
re-increases the customer's cached debt. -/
def eliminar (s : Store) (abono_id : Nat) (now : Int) : Store × Bool :=
  match getAbono s abono_id with
  | none => (s, false)
  | some abono =>
    match getVenta s abono.venta_id with
    | none => (s, false)
    | some venta =>
      let venta2 := Venta.calcular_totales now { venta with abonado := venta.abonado - abono.monto }
      let s1 := updateVenta s abono.venta_id (fun _ => venta2)
      let s2 := actualizarDeudaOpcional s1 venta.cliente_id abono.monto now
      let s3 : Store := { s2 with abonos := s2.abonos.filter (fun a => !(a.id == abono_id)) }
      (s3, true)

end AbonoRepository

namespace VentaRepository

/-- The stock-decrement loop of `VentaRepository.crear`: for each line item
flagged to affect stock and holding a product reference, decrement that
product's stock. -/
def descontarStockItems (s : Store) (items : List ItemVenta) (now : Int) : Store :=
  items.foldl (fun st item =>
    match item.producto_id with
    | some pid => ProductoRepository.descontar_stock st pid item.cantidad now
    | none => st) s

/-- `VentaRepository.crear` (`db_service.py`, lines 213-233): recompute the
sale's totals, decrement stock for the flagged items, and — if it is a
credit sale with a customer — increase that customer's cached debt by the
sale's `resto`; then persist the sale (the database assigns the next id). -/
def crear (s : Store) (venta : Venta) (now : Int) : Store × Venta :=
  let venta1 := Venta.calcular_totales now venta
  let s1 := descontarStockItems s venta1.get_items_con_stock now
  let s2 :=
    if venta1.es_fiado then actualizarDeudaOpcional s1 venta1.cliente_id venta1.resto now
    else s1
  let venta2 := { venta1 with id := s2.next_venta_id }
  ({ s2 with ventas := s2.ventas ++ [venta2]
             next_venta_id := s2.next_venta_id + 1 }, venta2)

/-- The debt-reversal step of `VentaRepository.eliminar` (`db_service.py`,
lines 309-318): if the sale is a credit sale with a customer and that
customer exists, subtract the sale's current `resto` from the cached debt. -/
def revertirDeudaCliente (s : Store) (venta : Venta) (now : Int) : Store :=
  if venta.es_fiado then
    match venta.cliente_id with
    | some cid =>
        match getCliente s cid with
        | some _ =>
            updateCliente s cid (fun c =>
              { c with deuda_total := c.deuda_total - venta.resto
                       fecha_actualizacion := some now })
        | none => s
    | none => s
  else s

/-- One step of the stock-reversal loop of `VentaRepository.eliminar`
(`db_service.py`, lines 303-307): re-increment one product's stock. -/
def revertirStockProducto (s : Store) (pid : Nat) (cantidad : ℚ) (now : Int) : Store :=
  match getProducto s pid with
  | some _ =>
      updateProducto s pid (fun p =>
        { p with cantidad_stock := p.cantidad_stock + cantidad
                 fecha_actualizacion := some now })
  | none => s

/-- The stock-reversal loop of `VentaRepository.eliminar`. -/
def revertirStockItems (s : Store) (items : List ItemVenta) (now : Int) : Store :=
  items.foldl (fun st item =>
    match item.producto_id with
    | some pid => revertirStockProducto st pid item.cantidad now
    | none => st) s

/-- `VentaRepository.eliminar` (`db_service.py`, lines 291-323): re-increment
the stock of the flagged items, subtract the sale's *current* `resto` from
the customer's cached debt, and delete the sale row; one `session.commit()`
ends the transaction.  The function contains no statement touching the
`abonos` table, but `Abono.venta_id` is a declared foreign key to
`ventas.id` with no ON DELETE action and no ORM cascade
(`models/abono.py` line 16), and the backend is Postgres
(`connection.py` requires a `postgresql://` URL), so the commit raises a
foreign-key violation whenever a payment row still references the sale,
and the whole transaction — the stock and debt reversals included — rolls
back.  The rolled-back failure is modelled as an `.error` carrying no
successor store: the caller keeps the unchanged one. -/
def eliminar (s : Store) (venta_id : Nat) (now : Int) :
    Except FkViolation (Store × Bool) :=
  match getVenta s venta_id with
  | none => .ok (s, false)
  | some venta =>
    if s.abonos.any (fun a => a.venta_id == venta_id) then
      .error (.abonosVentaId venta_id)
    else
      let s1 := revertirStockItems s venta.get_items_con_stock now
      let s2 := revertirDeudaCliente s1 venta now
      .ok ({ s2 with ventas := s2.ventas.filter (fun v => !(v.id == venta_id)) }, true)

end VentaRepository

/-- One entry of the reconciliation report (`db_service.py`, lines 129-135). -/
structure DiferenciaSync where
  cliente_id : Nat
  deuda_bd : ℚ
  deuda_real : ℚ
deriving DecidableEq, Repr

/-- The reconciliation report (`db_service.py`, lines 112-116). -/
structure SyncStats where
  total_clientes : Nat
  clientes_corregidos : Nat
  diferencias : List DiferenciaSync
deriving DecidableEq, Repr

namespace ClienteRepository

/-- The per-customer drift test of `sincronizar_todas_las_deudas`
(`db_service.py`, line 123): the cached debt differs from the recomputed
debt by more than the one-cent tolerance. -/
def necesitaCorreccion (s : Store) (c : Cliente) : Bool :=
  decide ((1 : ℚ) / 100 < |c.deuda_total - calcular_deuda_real s c.id|)

/-- `ClienteRepository.sincronizar_todas_las_deudas` (`db_service.py`, lines
105-138): for every active customer whose cached `deuda_total` drifts from
`calcular_deuda_real` by more than 0.01, set it to the recomputed value and
record a diff entry.  The Python loop mutates each fetched row in place;
this is modelled as a row-wise map over the customer table, with the report
built in the name-sorted order of the fetched list. -/
def sincronizar_todas_las_deudas (s : Store) (now : Int) : Store × SyncStats :=
  let clientes := listar_activos s
  let corregidos := clientes.filter (necesitaCorreccion s)
  let s1 : Store :=
    { s with clientes := s.clientes.map (fun c =>
        if c.activo && necesitaCorreccion s c then
          { c with deuda_total := calcular_deuda_real s c.id
                   fecha_actualizacion := some now }
        else c) }
  (s1, ⟨clientes.length, corregidos.length,
        corregidos.map (fun c => ⟨c.id, c.deuda_total, calcular_deuda_real s c.id⟩)⟩)

end ClienteRepository

/-- `Cliente.puede_fiar` (`models/cliente.py`, lines 38-40). -/
def Cliente.puede_fiar (c : Cliente) (monto : ℚ) : Bool :=
  decide (c.deuda_total + monto ≤ c.limite_credito)

/-- The payment-allocation loop of `procesar_abono`
(`views/clientes_page.py`, lines 432-454): walk the fetched pending sales;
for each, apply `min(monto_restante, venta.resto)` through
`AbonoRepository.crear`, collecting `(venta.id, monto)` pairs, stopping when
the remaining amount reaches 0.  A repository error aborts the loop (the
Python exception propagates out of `procesar_abono`); iterations already
committed keep their effect. -/
def procesarAbonoLoop (now : Int) :
    List Venta → Store → ℚ → List (Nat × ℚ) → Store × List (Nat × ℚ) × Option AbonoError
  | [], s, _, acc => (s, acc, none)
  | venta :: rest, s, monto_restante, acc =>
    if monto_restante ≤ 0 then (s, acc, none)
    else
      let monto_a_abonar := min monto_restante venta.resto
      if 0 < monto_a_abonar then
        match AbonoRepository.crear s venta.id monto_a_abonar now with
        | .error e => (s, acc, some e)
        | .ok (s', _) =>
            procesarAbonoLoop now rest s' (monto_restante - monto_a_abonar)
              (acc ++ [(venta.id, monto_a_abonar)])
      else procesarAbonoLoop now rest s monto_restante acc

/-- The allocation phase of `procesar_abono` (after its input validation
`0 < monto ≤ cliente.deuda_total` and the non-empty check): fetch the
customer's pending credit sales via `listar_fiados_cliente` and distribute
`monto` over them in that order. -/
def procesar_abono (s : Store) (cliente_id : Nat) (monto : ℚ) (now : Int) :
    Store × List (Nat × ℚ) × Option AbonoError :=
  procesarAbonoLoop now (VentaRepository.listar_fiados_cliente s cliente_id) s monto []

/-- Modelled from the spec (§4.5 `true_debt`): the ledger-derived debt —
the sum, over the customer's pending credit sales, of `sale.total` minus
the sum of that sale's recorded payments.  This definition follows the
spec's words; the repository's `calcular_deuda_real` is compared to it. -/
def true_debt (s : Store) (cid : Nat) : ℚ :=
  ((s.ventas.filter (fun v =>
      v.cliente_id == some cid && v.es_fiado && !v.pagado_completamente)).map
    (fun v => v.total - VentaRepository.calcular_abonado s v.id)).sum

/-! Concrete stores used to evaluate the operations on explicit inputs. -/

/-- Customer 1 with two pending credit sales: S1 (id 1, older date 1,
resto 100) and S2 (id 2, newer date 2, resto 50); cached debt 150. -/
def c1_store : Store :=
  { clientes := [⟨1, "c", 0, 150, true, none⟩]
    productos := []
    ventas := [⟨1, 1, some 1, [⟨none, 100, 1, 100, false⟩], 100, true, 0, 100, false, none⟩,
               ⟨2, 2, some 1, [⟨none, 50, 1, 50, false⟩], 50, true, 0, 50, false, none⟩]
    abonos := []
    next_venta_id := 3
    next_abono_id := 1 }

/-- A store whose one pending sale has a stale cached `resto`: total 100,
cached `abonado = 30` / `resto = 70`, but the payment ledger records a
single payment of 50, so the ledger-derived pending balance is 50. -/
def c2_store : Store :=
  { clientes := [⟨1, "c", 0, 70, true, none⟩]
    productos := []
    ventas := [⟨1, 0, some 1, [⟨none, 100, 1, 100, false⟩], 100, true, 30, 70, false, none⟩]
    abonos := [⟨1, 1, 50, 0⟩]
    next_venta_id := 2
    next_abono_id := 2 }

/-- A pending credit sale with total 40 and no payments (resto 40). -/
def c3_venta : Venta :=
  ⟨1, 0, some 1, [⟨none, 40, 1, 40, false⟩], 40, true, 0, 40, false, none⟩

/-- Store holding `c3_venta` for customer 1 (cached debt 40). -/
def c3_store : Store :=
  { clientes := [⟨1, "c", 0, 40, true, none⟩]
    productos := []
    ventas := [c3_venta]
    abonos := []
    next_venta_id := 2
    next_abono_id := 1 }

/-- A credit sale whose cached `abonado` (5) has drifted from its payment
ledger (empty, sum 0): total 100, cached resto 95, customer debt 95. -/
def c4_store : Store :=
  { clientes := [⟨1, "c", 0, 95, true, none⟩]
    productos := []
    ventas := [⟨1, 0, some 1, [⟨none, 100, 1, 100, false⟩], 100, true, 5, 95, false, none⟩]
    abonos := []
    next_venta_id := 2
    next_abono_id := 1 }

/-- The store obtained from `c4_store` by recording a payment of 10 on sale
1 and then deleting that very payment. -/
def c4_after : Store :=
  match AbonoRepository.crear c4_store 1 10 0 with
  | .ok (s', a) => (AbonoRepository.eliminar s' a.id 0).1
  | .error _ => c4_store

/-- A consistent store (cached fields in sync with the ledger) used as a
concrete instance for the corrected general statements: sale 1 has total
100 and one recorded payment of 30 (abonado 30, resto 70). -/
def consistent_store : Store :=
  { clientes := [⟨1, "c", 0, 70, true, none⟩]
    productos := []
    ventas := [⟨1, 0, some 1, [⟨none, 100, 1, 100, false⟩], 100, true, 30, 70, false, none⟩]
    abonos := [⟨1, 1, 30, 0⟩]
    next_venta_id := 2
    next_abono_id := 2 }

/-- The (consistent) sale stored in `consistent_store`, named for use as an
explicit witness input. -/
def c4w_venta : Venta :=
  ⟨1, 0, some 1, [⟨none, 100, 1, 100, false⟩], 100, true, 30, 70, false, none⟩

/-- The store produced by `AbonoRepository.crear consistent_store 1 10 5`:
payment id 2 of 10 recorded, sale cache at abonado 40 / resto 60, customer
debt at 60. -/
def c4w_after_crear : Store :=
  ⟨[⟨1, "c", 0, 60, true, some 5⟩], [],
   [⟨1, 0, some 1, [⟨none, 100, 1, 100, false⟩], 100, true, 40, 60, false, none⟩],
   [⟨1, 1, 30, 0⟩, ⟨2, 1, 10, 5⟩], 2, 3⟩

/-- A store with two sales: sale 1 (non-credit, no line items, deletable)
and sale 2 (credit, fully paid) with one payment row referencing it. -/
def c9n_store : Store :=
  ⟨[], [],
   [⟨1, 0, none, [], 0, false, 0, 0, true, none⟩,
    ⟨2, 0, some 1, [⟨none, 50, 1, 50, false⟩], 50, true, 50, 0, true, some 0⟩],
   [⟨1, 2, 50, 0⟩], 3, 2⟩

/-- `c9n_store` after successfully deleting sale 1: sale 2 and its payment
are untouched. -/
def c9n_after : Store :=
  ⟨[], [],
   [⟨2, 0, some 1, [⟨none, 50, 1, 50, false⟩], 50, true, 50, 0, true, some 0⟩],
   [⟨1, 2, 50, 0⟩], 3, 2⟩

/-- Customer 1 with credit limit 100 and debt 90; used to show the absence
of any credit-limit check on sale creation. -/
def c10_cliente : Cliente := ⟨1, "c", 100, 90, true, none⟩

/-- Store holding only `c10_cliente`. -/
def c10_store : Store := ⟨[c10_cliente], [], [], [], 1, 1⟩

/-- A fresh credit sale of total 50 for customer 1 (as built by the UI:
`abonado = 0`). -/
def c10_venta : Venta :=
  ⟨0, 0, some 1, [⟨none, 50, 1, 50, false⟩], 0, true, 0, 0, false, none⟩

/-- Empty customer 1 (limit 1000, debt 0) for the deletion-reversal run. -/
def c6_s0 : Store := ⟨[⟨1, "c", 1000, 0, true, none⟩], [], [], [], 1, 1⟩

/-- A fresh credit sale of total 200 for customer 1. -/
def c6_venta : Venta :=
  ⟨0, 0, some 1, [⟨none, 200, 1, 200, false⟩], 0, true, 0, 0, false, none⟩

/-- `c6_s0` after creating the credit sale of 200 (debt 0 → 200). -/
def c6_s1 : Store := (VentaRepository.crear c6_s0 c6_venta 0).1

/-- `c6_s1` after recording a payment of 50 on sale 1 (debt 200 → 150). -/
def c6_s2 : Store :=
  match AbonoRepository.crear c6_s1 1 50 1 with
  | .ok (s', _) => s'
  | .error _ => c6_s1

/-- `c6_s1` after deleting the (payment-free) sale 1: the customer's debt
falls from 200 back to 0. -/
def c6_s3 : Store := ⟨[⟨1, "c", 1000, 0, true, some 2⟩], [], [], [], 2, 1⟩

/-- A fresh non-credit sale with one line item of subtotal 150 (as the UI
builds it: `abonado = 0`), used to exhibit a concrete reachable store. -/
def c5_venta : Venta := ⟨0, 0, none, [⟨none, 150, 1, 150, false⟩], 0, false, 0, 0, false, none⟩

/-- The store states reachable through the ledger operations, starting from
an empty database: customer/product creation, sale creation (the UI always
builds a fresh sale with `abonado = 0`, `views/nueva_venta_page.py` line
795; any initial payment then goes through `registrar_abono`, i.e.
`AbonoRepository.crear`), payment recording, payment deletion, sale
deletion, and the debt-reconciliation batch job. -/
inductive Reachable : Store → Prop where
  | empty : Reachable ⟨[], [], [], [], 1, 1⟩
  | crearCliente (s : Store) (c : Cliente) : Reachable s →
      Reachable { s with clientes := s.clientes ++ [c] }
  | crearProducto (s : Store) (p : Producto) : Reachable s →
      Reachable { s with productos := s.productos ++ [p] }
  | crearVenta (s : Store) (venta : Venta) (now : Int) : Reachable s →
      venta.abonado = 0 → Reachable (VentaRepository.crear s venta now).1
  | crearAbono (s : Store) (vid : Nat) (monto : ℚ) (now : Int) (s' : Store) (a : Abono) :
      Reachable s → AbonoRepository.crear s vid monto now = .ok (s', a) → Reachable s'
  | eliminarAbono (s : Store) (aid : Nat) (now : Int) : Reachable s →
      Reachable (AbonoRepository.eliminar s aid now).1
  | eliminarVenta (s : Store) (vid : Nat) (now : Int) (s' : Store) (b : Bool) :
      Reachable s → VentaRepository.eliminar s vid now = .ok (s', b) → Reachable s'
  | sincronizar (s : Store) (now : Int) : Reachable s →
      Reachable (ClienteRepository.sincronizar_todas_las_deudas s now).1

/-- The well-formedness package maintained by every ledger operation:
sale/payment ids are below the auto-increment counters, payment ids are
strictly increasing along the table (hence unique), every payment points at
a sale id the counter has already produced, each sale's cached `abonado`
equals its payment-ledger sum, and each sale satisfies
`abonado + resto = total`. -/
structure WF (s : Store) : Prop where
  ventas_id_lt : ∀ v ∈ s.ventas, v.id < s.next_venta_id
  abonos_id_mono : s.abonos.Pairwise (fun a b => a.id < b.id)
  abonos_id_lt : ∀ a ∈ s.abonos, a.id < s.next_abono_id
  abonos_venta_lt : ∀ a ∈ s.abonos, a.venta_id < s.next_venta_id
  ledger : ∀ v ∈ s.ventas, VentaRepository.calcular_abonado s v.id = v.abonado
  conserva : ∀ v ∈ s.ventas, v.abonado + v.resto = v.total

/-! ## Generic list lemmas for keyed row tables -/

theorem find?_key_mem {α : Type} (key : α → Nat) (k : Nat) (l : List α) (x : α)
    (h : l.find? (fun y => key y == k) = some x) : x ∈ l ∧ key x = k :=
  ⟨List.mem_of_find?_eq_some h, by simpa using List.find?_some h⟩

theorem find?_map_pred {α : Type} (g : α → α) (p : α → Bool) (l : List α)
    (hp : ∀ x, p (g x) = p x) : (l.map g).find? p = (l.find? p).map g := by
  induction l with
  | nil => rfl
  | cons y ys ih =>
    rw [List.map_cons, List.find?_cons, List.find?_cons, hp y]
    cases p y <;> simp [ih]

theorem find?_key_map_update {α : Type} (key : α → Nat) (w : α) (k k' : Nat) (l : List α)
    (hw : key w = k) :
    (l.map (fun x => if key x == k then w else x)).find? (fun x => key x == k') =
      if k' = k then (l.find? (fun x => key x == k)).map (fun _ => w)
      else l.find? (fun x => key x == k') := by
  induction l with
  | nil => by_cases hk : k' = k <;> simp [hk]
  | cons y ys ih =>
    by_cases hy : key y = k
    · have hhead : (if (key y == k) = true then w else y) = w := if_pos (by simpa using hy)
      rw [List.map_cons, hhead]
      by_cases hk : k' = k
      · rw [if_pos hk, List.find?_cons_of_pos _ (by simp [hw, hk]),
          List.find?_cons_of_pos _ (by simpa using hy)]
        rfl
      · rw [if_neg hk, List.find?_cons_of_neg _ (by simp [hw]; omega),
          List.find?_cons_of_neg _ (by simp [hy]; omega), ih, if_neg hk]
    · have hhead : (if (key y == k) = true then w else y) = y := if_neg (by simpa using hy)
      rw [List.map_cons, hhead]
      by_cases hk : k' = k
      · rw [if_pos hk, List.find?_cons_of_neg _ (by simp; omega),
          List.find?_cons_of_neg _ (by simpa using hy), ih, if_pos hk]
      · by_cases hy' : key y = k'
        · rw [if_neg hk, List.find?_cons_of_pos _ (by simpa using hy'),
            List.find?_cons_of_pos _ (by simpa using hy')]
        · rw [if_neg hk, List.find?_cons_of_neg _ (by simpa using hy'),
            List.find?_cons_of_neg _ (by simpa using hy'), ih, if_neg hk]

theorem mem_key_map_update {α : Type} (key : α → Nat) (w : α) (k : Nat) (l : List α) (x : α)
    (hx : x ∈ l.map (fun y => if key y == k then w else y)) :
    (x ∈ l ∧ key x ≠ k) ∨ x = w := by
  rcases List.mem_map.1 hx with ⟨y, hy, hxy⟩
  by_cases h : key y = k
  · right; rw [← hxy, if_pos ((beq_iff_eq).mpr h)]
  · left
    have hxy' : x = y := by rw [← hxy, if_neg (by simpa using h)]
    exact ⟨hxy' ▸ hy, hxy' ▸ h⟩

/-! ## Store-field preservation lemmas -/

theorem actualizar_deuda_fields (s : Store) (cid : Nat) (monto : ℚ) (now : Int) :
    (ClienteRepository.actualizar_deuda s cid monto now).productos = s.productos ∧
    (ClienteRepository.actualizar_deuda s cid monto now).ventas = s.ventas ∧
    (ClienteRepository.actualizar_deuda s cid monto now).abonos = s.abonos ∧
    (ClienteRepository.actualizar_deuda s cid monto now).next_venta_id = s.next_venta_id ∧
    (ClienteRepository.actualizar_deuda s cid monto now).next_abono_id = s.next_abono_id := by
  unfold ClienteRepository.actualizar_deuda
  cases getCliente s cid <;> exact ⟨rfl, rfl, rfl, rfl, rfl⟩

theorem actualizarDeudaOpcional_fields (s : Store) (ocid : Option Nat) (monto : ℚ) (now : Int) :
    (actualizarDeudaOpcional s ocid monto now).productos = s.productos ∧
    (actualizarDeudaOpcional s ocid monto now).ventas = s.ventas ∧
    (actualizarDeudaOpcional s ocid monto now).abonos = s.abonos ∧
    (actualizarDeudaOpcional s ocid monto now).next_venta_id = s.next_venta_id ∧
    (actualizarDeudaOpcional s ocid monto now).next_abono_id = s.next_abono_id := by
  cases ocid with
  | none => exact ⟨rfl, rfl, rfl, rfl, rfl⟩
  | some cid => exact actualizar_deuda_fields s cid monto now

theorem descontar_stock_fields (s : Store) (pid : Nat) (q : ℚ) (now : Int) :
    (ProductoRepository.descontar_stock s pid q now).clientes = s.clientes ∧
    (ProductoRepository.descontar_stock s pid q now).ventas = s.ventas ∧
    (ProductoRepository.descontar_stock s pid q now).abonos = s.abonos ∧
    (ProductoRepository.descontar_stock s pid q now).next_venta_id = s.next_venta_id ∧
    (ProductoRepository.descontar_stock s pid q now).next_abono_id = s.next_abono_id := by
  unfold ProductoRepository.descontar_stock
  cases getProducto s pid <;> exact ⟨rfl, rfl, rfl, rfl, rfl⟩

theorem descontarStockItems_fields (items : List ItemVenta) (s : Store) (now : Int) :
    (VentaRepository.descontarStockItems s items now).clientes = s.clientes ∧
    (VentaRepository.descontarStockItems s items now).ventas = s.ventas ∧
    (VentaRepository.descontarStockItems s items now).abonos = s.abonos ∧
    (VentaRepository.descontarStockItems s items now).next_venta_id = s.next_venta_id ∧
    (VentaRepository.descontarStockItems s items now).next_abono_id = s.next_abono_id := by
  induction items generalizing s with
  | nil => exact ⟨rfl, rfl, rfl, rfl, rfl⟩
  | cons item rest ih =>
    have hstep : VentaRepository.descontarStockItems s (item :: rest) now =
        VentaRepository.descontarStockItems
          (match item.producto_id with
           | some pid => ProductoRepository.descontar_stock s pid item.cantidad now
           | none => s) rest now := rfl
    rw [hstep]
    cases item.producto_id with
    | none => exact ih s
    | some pid =>
      have h1 := ih (ProductoRepository.descontar_stock s pid item.cantidad now)
      have h2 := descontar_stock_fields s pid item.cantidad now
      exact ⟨h1.1.trans h2.1, h1.2.1.trans h2.2.1, h1.2.2.1.trans h2.2.2.1,
        h1.2.2.2.1.trans h2.2.2.2.1, h1.2.2.2.2.trans h2.2.2.2.2⟩

theorem revertirStockItems_fields (items : List ItemVenta) (s : Store) (now : Int) :
    (VentaRepository.revertirStockItems s items now).clientes = s.clientes ∧
    (VentaRepository.revertirStockItems s items now).ventas = s.ventas ∧
    (VentaRepository.revertirStockItems s items now).abonos = s.abonos ∧
    (VentaRepository.revertirStockItems s items now).next_venta_id = s.next_venta_id ∧
    (VentaRepository.revertirStockItems s items now).next_abono_id = s.next_abono_id := by
  induction items generalizing s with
  | nil => exact ⟨rfl, rfl, rfl, rfl, rfl⟩
  | cons item rest ih =>
    have hstep : VentaRepository.revertirStockItems s (item :: rest) now =
        VentaRepository.revertirStockItems
          (match item.producto_id with
           | some pid => VentaRepository.revertirStockProducto s pid item.cantidad now
           | none => s) rest now := rfl
    rw [hstep]
    cases item.producto_id with
    | none => exact ih s
    | some pid =>
      have h1 := ih (VentaRepository.revertirStockProducto s pid item.cantidad now)
      have h2 : (VentaRepository.revertirStockProducto s pid item.cantidad now).clientes = s.clientes ∧
          (VentaRepository.revertirStockProducto s pid item.cantidad now).ventas = s.ventas ∧
          (VentaRepository.revertirStockProducto s pid item.cantidad now).abonos = s.abonos ∧
          (VentaRepository.revertirStockProducto s pid item.cantidad now).next_venta_id = s.next_venta_id ∧
          (VentaRepository.revertirStockProducto s pid item.cantidad now).next_abono_id = s.next_abono_id := by
        unfold VentaRepository.revertirStockProducto
        cases getProducto s pid <;> exact ⟨rfl, rfl, rfl, rfl, rfl⟩
      exact ⟨h1.1.trans h2.1, h1.2.1.trans h2.2.1, h1.2.2.1.trans h2.2.2.1,
        h1.2.2.2.1.trans h2.2.2.2.1, h1.2.2.2.2.trans h2.2.2.2.2⟩

theorem revertirDeudaCliente_fields (s : Store) (venta : Venta) (now : Int) :
    (VentaRepository.revertirDeudaCliente s venta now).productos = s.productos ∧
    (VentaRepository.revertirDeudaCliente s venta now).ventas = s.ventas ∧
    (VentaRepository.revertirDeudaCliente s venta now).abonos = s.abonos ∧
    (VentaRepository.revertirDeudaCliente s venta now).next_venta_id = s.next_venta_id ∧
    (VentaRepository.revertirDeudaCliente s venta now).next_abono_id = s.next_abono_id := by
  unfold VentaRepository.revertirDeudaCliente
  repeat' split
  all_goals exact ⟨rfl, rfl, rfl, rfl, rfl⟩

theorem getCliente_updateCliente (s : Store) (cid k : Nat) (f : Cliente → Cliente)
    (hf : ∀ c, (f c).id = c.id) :
    getCliente (updateCliente s cid f) k =
      (getCliente s k).map (fun c => if c.id == cid then f c else c) :=
  find?_map_pred _ _ _ (fun c => by by_cases h : c.id = cid <;> simp [h, hf c])

/-! ## Ledger-sum lemmas -/

theorem calcular_abonado_congr (s t : Store) (h : t.abonos = s.abonos) (k : Nat) :
    VentaRepository.calcular_abonado t k = VentaRepository.calcular_abonado s k := by
  unfold VentaRepository.calcular_abonado
  rw [h]

theorem calcular_abonado_eq_zero (s : Store) (k : Nat)
    (h : ∀ a ∈ s.abonos, a.venta_id ≠ k) : VentaRepository.calcular_abonado s k = 0 := by
  unfold VentaRepository.calcular_abonado
  rw [List.filter_eq_nil_iff.2 (fun a ha => by simpa using h a ha)]
  rfl

theorem sum_montos_filter_append (l1 l2 : List Abono) (t : Nat) :
    (((l1 ++ l2).filter (fun a => a.venta_id == t)).map Abono.monto).sum =
      ((l1.filter (fun a => a.venta_id == t)).map Abono.monto).sum +
      ((l2.filter (fun a => a.venta_id == t)).map Abono.monto).sum := by
  rw [List.filter_append, List.map_append, List.sum_append]

theorem sum_montos_singleton (a : Abono) (t : Nat) :
    (([a].filter (fun x => x.venta_id == t)).map Abono.monto).sum =
      if a.venta_id = t then a.monto else 0 := by
  by_cases h : a.venta_id = t
  · rw [List.filter_cons_of_pos (by simpa using h), if_pos h]
    simp
  · rw [List.filter_cons_of_neg (by simpa using h), if_neg h]
    rfl

theorem sum_montos_filter_erase (l : List Abono) (aid t : Nat) (a : Abono)
    (hmono : l.Pairwise (fun x y => x.id < y.id))
    (hfind : l.find? (fun x => x.id == aid) = some a) :
    (((l.filter (fun x => !(x.id == aid))).filter (fun x => x.venta_id == t)).map
        Abono.monto).sum =
      ((l.filter (fun x => x.venta_id == t)).map Abono.monto).sum -
        (if a.venta_id = t then a.monto else 0) := by
  induction l with
  | nil => simp at hfind
  | cons b rest ih =>
    have hpair := List.pairwise_cons.1 hmono
    by_cases hb : b.id = aid
    · have hab : a = b := by
        rw [List.find?_cons_of_pos _ (by simpa using hb)] at hfind
        exact (Option.some.inj hfind).symm
      subst hab
      have hrest : rest.filter (fun x => !(x.id == aid)) = rest := by
        rw [List.filter_eq_self]
        intro x hx
        have hlt := hpair.1 x hx
        simp only [Bool.not_eq_true']
        exact beq_eq_false_iff_ne.2 (by omega)
      rw [List.filter_cons_of_neg (by simpa using hb), hrest]
      by_cases hbt : a.venta_id = t
      · rw [List.filter_cons_of_pos (by simpa using hbt), if_pos hbt]
        simp [List.sum_cons]
      · rw [List.filter_cons_of_neg (by simpa using hbt), if_neg hbt]
        ring
    · have hfind' : rest.find? (fun x => x.id == aid) = some a := by
        rw [List.find?_cons_of_neg _ (by simpa using hb)] at hfind
        exact hfind
      have hIH := ih hpair.2 hfind'
      rw [List.filter_cons_of_pos (by simpa using hb)]
      by_cases hbt : b.venta_id = t
      · rw [List.filter_cons_of_pos (by simpa using hbt),
          List.filter_cons_of_pos (by simpa using hbt)]
        simp only [List.map_cons, List.sum_cons, hIH]
        ring
      · rw [List.filter_cons_of_neg (by simpa using hbt),
          List.filter_cons_of_neg (by simpa using hbt), hIH]

/-! ## `calcular_totales` facts -/

theorem calcular_totales_conserva (now : Int) (v : Venta) :
    (Venta.calcular_totales now v).abonado + (Venta.calcular_totales now v).resto =
      (Venta.calcular_totales now v).total := by
  show v.abonado + ((v.productos.map ItemVenta.subtotal).sum - v.abonado) =
    (v.productos.map ItemVenta.subtotal).sum
  ring

/-! ## C1 — FIFO allocation order -/

/-- C1: the spec claims the customer-payment allocation walks the pending
credit sales oldest-first (FIFO), fully paying S1 (older, resto 100) then
applying 20 to S2 (newer, resto 50) for a payment of 120, returning
`[(S1,100),(S2,20)]`.  The code fetches the sales ordered `fecha.desc()`
(newest first) and walks that order, so on this exact scenario it returns
`[(S2,50),(S1,70)]`, leaving S1 at resto 30 and S2 fully paid — the
opposite of the claim (the loop's own comment announces FIFO oldest-first,
`clientes_page.py` line 432, so the code contradicts its documentation). -/
theorem c1_fifo_allocation_walks_newest_first :
    (procesar_abono c1_store 1 120 5).2.1 = [(2, 50), (1, 70)] ∧
    (getVenta (procesar_abono c1_store 1 120 5).1 1).map Venta.resto = some 30 ∧
    (getVenta (procesar_abono c1_store 1 120 5).1 2).map Venta.resto = some 0 ∧
    ((2, (50 : ℚ)) :: [((1 : Nat), (70 : ℚ))]) ≠ [(1, 100), (2, 20)] := by
  norm_num [procesar_abono, procesarAbonoLoop, c1_store, VentaRepository.listar_fiados_cliente,
    orderBy, insertOrdered, AbonoRepository.crear, getVenta, VentaRepository.calcular_abonado,
    updateVenta, Venta.calcular_totales, actualizarDeudaOpcional,
    ClienteRepository.actualizar_deuda, getCliente, updateCliente]

/-! ## C2 — `calcular_deuda_real` and the payment ledger -/

/-- C2 (counterexample): the claim states `calcular_deuda_real` recomputes
each sale's pending balance from the payment ledger.  On `c2_store` the
sale's cached `resto` is 70 while its ledger-derived pending balance
(`total − sum of payments` = 100 − 50) is 50; `calcular_deuda_real`
returns the cached 70, not the ledger's 50. -/
theorem c2_calcular_deuda_real_uses_cached_resto :
    ClienteRepository.calcular_deuda_real c2_store 1 = 70 ∧
    true_debt c2_store 1 = 50 ∧ ((70 : ℚ) ≠ 50) := by
  norm_num [ClienteRepository.calcular_deuda_real, true_debt, c2_store,
    VentaRepository.calcular_abonado]

/-- C2 (amended): `calcular_deuda_real` sums the cached `resto` fields of
the customer's pending credit sales; it agrees with the ledger-derived
`true_debt` exactly when each sale's cached `resto` matches
`total − ledger payments` — it does not itself recompute from the ledger. -/
theorem c2_calcular_deuda_real_eq_true_debt_of_consistent (s : Store) (cid : Nat)
    (h : ∀ v ∈ s.ventas, v.resto = v.total - VentaRepository.calcular_abonado s v.id) :
    ClienteRepository.calcular_deuda_real s cid = true_debt s cid := by
  unfold ClienteRepository.calcular_deuda_real true_debt
  refine congrArg List.sum (List.map_congr_left ?_)
  intro v hv
  exact h v (List.mem_of_mem_filter hv)

/-- C2 witness: on `consistent_store` (cached fields in sync with the
ledger) the hypothesis holds and the two computations agree. -/
theorem c2_calcular_deuda_real_eq_true_debt_witness :
    (∀ v ∈ consistent_store.ventas,
        v.resto = v.total - VentaRepository.calcular_abonado consistent_store v.id) ∧
    ClienteRepository.calcular_deuda_real consistent_store 1 = true_debt consistent_store 1 := by
  have h : ∀ v ∈ consistent_store.ventas,
      v.resto = v.total - VentaRepository.calcular_abonado consistent_store v.id := by
    intro v hv
    simp only [consistent_store, List.mem_singleton] at hv
    subst hv
    norm_num [VentaRepository.calcular_abonado, consistent_store]
  exact ⟨h, c2_calcular_deuda_real_eq_true_debt_of_consistent consistent_store 1 h⟩

/-! ## C3 — over-payment rejection -/

/-- C3: for a credit sale and a positive amount strictly above the pending
balance recomputed from the ledger (`venta.total − calcular_abonado`),
`AbonoRepository.crear` fails with the over-payment error carrying that
recomputed pending balance.  All validations run before any write, and an
`.error` result carries no successor store, so no mutation occurs. -/
theorem c3_overpayment_rejected_with_pending_balance (s : Store) (venta_id : Nat)
    (venta : Venta) (monto : ℚ) (now : Int)
    (hv : getVenta s venta_id = some venta) (hf : venta.es_fiado = true) (hm : 0 < monto)
    (hx : venta.total - VentaRepository.calcular_abonado s venta_id < monto) :
    AbonoRepository.crear s venta_id monto now =
      .error (.excedeRestoPendiente monto
        (venta.total - VentaRepository.calcular_abonado s venta_id)) := by
  simp only [AbonoRepository.crear, hv]
  rw [if_neg (by simp [hf]), if_neg (not_le.mpr hm), if_pos hx]

/-- C3 witness: on the concrete sale with resto 40 (total 40, empty
ledger) a payment of 41 is rejected with pending balance 40. -/
theorem c3_overpayment_rejected_witness :
    AbonoRepository.crear c3_store 1 41 0 =
      .error (.excedeRestoPendiente 41 40) := by
  have h := c3_overpayment_rejected_with_pending_balance c3_store 1 c3_venta 41 0 rfl rfl
    (by norm_num) (by norm_num [c3_venta, c3_store, VentaRepository.calcular_abonado])
  rw [h]
  norm_num [c3_venta, c3_store, VentaRepository.calcular_abonado]

/-! ## C4 — record + delete round trip -/

/-- C4 (counterexample): the round trip is not a no-op on every credit
sale.  On `c4_store` the sale's cached `abonado` (5) has drifted from its
empty payment ledger; recording a payment of 10 and deleting it leaves
`abonado = 0` and `resto = 100` instead of the pre-call 5 and 95 — the
pair of calls silently repairs the cache to the ledger values. -/
theorem c4_roundtrip_fails_on_drifted_cache :
    (getVenta c4_store 1).map Venta.abonado = some 5 ∧
    (getVenta c4_after 1).map Venta.abonado = some 0 ∧
    (getVenta c4_store 1).map Venta.resto = some 95 ∧
    (getVenta c4_after 1).map Venta.resto = some 100 ∧
    ((5 : ℚ) ≠ 0) := by
  norm_num [c4_after, c4_store, AbonoRepository.crear, AbonoRepository.eliminar, getVenta,
    getAbono, VentaRepository.calcular_abonado, updateVenta, Venta.calcular_totales,
    actualizarDeudaOpcional, ClienteRepository.actualizar_deuda, getCliente, updateCliente]

/-! ## C9 — payments of a deleted sale -/

theorem eliminar_venta_ok_false_inv (s : Store) (vid : Nat) (now : Int) (s' : Store)
    (h : VentaRepository.eliminar s vid now = .ok (s', false)) : s' = s := by
  unfold VentaRepository.eliminar at h
  cases hv : getVenta s vid with
  | none =>
    rw [hv] at h
    simp only [Except.ok.injEq, Prod.mk.injEq] at h
    exact h.1.symm
  | some venta =>
    rw [hv] at h
    simp only [] at h
    by_cases hfk : s.abonos.any (fun a => a.venta_id == vid) = true
    · rw [if_pos hfk] at h; exact absurd h (by simp)
    · rw [if_neg hfk] at h
      simp only [Except.ok.injEq, Prod.mk.injEq] at h
      exact absurd h.2 (by simp)

theorem eliminar_venta_ok_true_inv (s : Store) (vid : Nat) (now : Int) (s' : Store)
    (h : VentaRepository.eliminar s vid now = .ok (s', true)) :
    (∀ a ∈ s.abonos, a.venta_id ≠ vid) ∧
    (∃ venta, getVenta s vid = some venta ∧
      s'.ventas = s.ventas.filter (fun v => !(v.id == vid)) ∧
      s'.abonos = s.abonos ∧
      s'.next_venta_id = s.next_venta_id ∧
      s'.next_abono_id = s.next_abono_id) := by
  unfold VentaRepository.eliminar at h
  cases hv : getVenta s vid with
  | none =>
    rw [hv] at h
    simp only [Except.ok.injEq, Prod.mk.injEq] at h
    exact absurd h.2 (by simp)
  | some venta =>
    rw [hv] at h
    simp only [] at h
    by_cases hfk : s.abonos.any (fun a => a.venta_id == vid) = true
    · rw [if_pos hfk] at h; exact absurd h (by simp)
    · rw [if_neg hfk] at h
      simp only [Except.ok.injEq, Prod.mk.injEq] at h
      have hnoab : ∀ a ∈ s.abonos, a.venta_id ≠ vid := by
        intro a ha heq
        exact hfk (List.any_eq_true.2 ⟨a, ha, by simp [heq]⟩)
      have h1 := revertirStockItems_fields venta.get_items_con_stock s now
      have h2 := revertirDeudaCliente_fields
        (VentaRepository.revertirStockItems s venta.get_items_con_stock now) venta now
      refine ⟨hnoab, venta, rfl, ?_, ?_, ?_, ?_⟩
      · rw [← h.1]
        show (VentaRepository.revertirDeudaCliente
          (VentaRepository.revertirStockItems s venta.get_items_con_stock now) venta
          now).ventas.filter (fun v => !(v.id == vid)) = _
        rw [h2.2.1, h1.2.1]
      · rw [← h.1]
        show (VentaRepository.revertirDeudaCliente
          (VentaRepository.revertirStockItems s venta.get_items_con_stock now) venta
          now).abonos = _
        rw [h2.2.2.1, h1.2.2.1]
      · rw [← h.1]
        show (VentaRepository.revertirDeudaCliente
          (VentaRepository.revertirStockItems s venta.get_items_con_stock now) venta
          now).next_venta_id = _
        rw [h2.2.2.2.1, h1.2.2.2.1]
      · rw [← h.1]
        show (VentaRepository.revertirDeudaCliente
          (VentaRepository.revertirStockItems s venta.get_items_con_stock now) venta
          now).next_abono_id = _
        rw [h2.2.2.2.2, h1.2.2.2.2]

/-- C9: after a successful sale deletion, no payment record referencing
the deleted sale's id remains in the store.  The declared foreign key
`abonos.venta_id → ventas.id` (NO ACTION, no cascade) makes the commit of
a deletion fail and roll back whenever a payment still references the
sale, so a deletion can only succeed when no such payment exists — and
`eliminar` itself leaves the `abonos` table unchanged. -/
theorem c9_successful_delete_leaves_no_referencing_payment (s : Store) (venta_id : Nat)
    (now : Int) (s' : Store)
    (h : VentaRepository.eliminar s venta_id now = .ok (s', true))
    (a : Abono) (ha : a ∈ s'.abonos) : a.venta_id ≠ venta_id := by
  obtain ⟨hnoab, venta, hv, hventas, habonos, -, -⟩ :=
    eliminar_venta_ok_true_inv s venta_id now s' h
  rw [habonos] at ha
  exact hnoab a ha

/-- C9 witness: deleting the payment-free sale 1 of `c9n_store` succeeds,
and the surviving payment row references sale 2, not the deleted sale 1. -/
theorem c9_successful_delete_witness :
    VentaRepository.eliminar c9n_store 1 5 = .ok (c9n_after, true) ∧
    (⟨1, 2, 50, 0⟩ : Abono) ∈ c9n_after.abonos ∧
    (⟨1, 2, 50, 0⟩ : Abono).venta_id ≠ 1 := by
  have hok : VentaRepository.eliminar c9n_store 1 5 = .ok (c9n_after, true) := by
    norm_num [c9n_store, c9n_after, VentaRepository.eliminar, getVenta, getCliente,
      VentaRepository.revertirStockItems, VentaRepository.revertirDeudaCliente,
      Venta.get_items_con_stock, updateCliente]
  refine ⟨hok, List.mem_singleton_self _, ?_⟩
  exact c9_successful_delete_leaves_no_referencing_payment c9n_store 1 5 c9n_after hok
    ⟨1, 2, 50, 0⟩ (List.mem_singleton_self _)

/-! ## C6 — deleting a sale and the customer's debt -/

/-- C6 (counterexample): the claim's 50-payment scenario cannot execute.
After the payment of 50 (`c6_s2`: debt 150, sale resto 150, one payment
row referencing sale 1), deleting sale 1 violates the foreign key on
`abonos.venta_id` at commit and the transaction rolls back: `eliminar`
raises instead of bringing the debt to 0. -/
theorem c6_delete_after_payment_rejected :
    (getCliente c6_s2 1).map Cliente.deuda_total = some 150 ∧
    (getVenta c6_s2 1).map Venta.resto = some 150 ∧
    VentaRepository.eliminar c6_s2 1 2 = .error (.abonosVentaId 1) := by
  have hcl : getCliente c6_s2 1 = some ⟨1, "c", 1000, 150, true, some 1⟩ := by
    norm_num [c6_s2, c6_s1, c6_s0, c6_venta, VentaRepository.crear, AbonoRepository.crear,
      getVenta, getCliente, VentaRepository.calcular_abonado,
      VentaRepository.descontarStockItems, updateVenta, updateCliente, Venta.calcular_totales,
      Venta.get_items_con_stock, actualizarDeudaOpcional, ClienteRepository.actualizar_deuda]
  have hv : getVenta c6_s2 1 =
      some ⟨1, 0, some 1, [⟨none, 200, 1, 200, false⟩], 200, true, 50, 150, false, none⟩ := by
    norm_num [c6_s2, c6_s1, c6_s0, c6_venta, VentaRepository.crear, AbonoRepository.crear,
      getVenta, getCliente, VentaRepository.calcular_abonado,
      VentaRepository.descontarStockItems, updateVenta, updateCliente, Venta.calcular_totales,
      Venta.get_items_con_stock, actualizarDeudaOpcional, ClienteRepository.actualizar_deuda]
  refine ⟨by rw [hcl]; rfl, by rw [hv]; rfl, ?_⟩
  norm_num [c6_s2, c6_s1, c6_s0, c6_venta, VentaRepository.crear, AbonoRepository.crear,
    VentaRepository.eliminar, getVenta, getCliente, VentaRepository.calcular_abonado,
    VentaRepository.descontarStockItems, updateVenta, updateCliente, Venta.calcular_totales,
    Venta.get_items_con_stock, actualizarDeudaOpcional, ClienteRepository.actualizar_deuda]

/-- C6 (amended): when the deletion succeeds — which the foreign key on
`abonos.venta_id` restricts to sales with no recorded payments — deleting
a credit sale with a customer decreases that customer's cached debt by
the sale's *current* `resto` field, not by the original total. -/
theorem c6_delete_sale_reverses_current_resto (s : Store) (venta_id : Nat) (venta : Venta)
    (cid : Nat) (cliente : Cliente) (now : Int) (s' : Store)
    (hv : getVenta s venta_id = some venta) (hf : venta.es_fiado = true)
    (hc : venta.cliente_id = some cid) (hcl : getCliente s cid = some cliente)
    (hok : VentaRepository.eliminar s venta_id now = .ok (s', true)) :
    (getCliente s' cid).map Cliente.deuda_total =
      some (cliente.deuda_total - venta.resto) := by
  have hgc1 : getCliente (VentaRepository.revertirStockItems s venta.get_items_con_stock now)
      cid = some cliente := by
    unfold getCliente
    rw [(revertirStockItems_fields venta.get_items_con_stock s now).1]
    exact hcl
  unfold VentaRepository.eliminar at hok
  rw [hv] at hok
  simp only [] at hok
  by_cases hfk : s.abonos.any (fun a => a.venta_id == venta_id) = true
  · rw [if_pos hfk] at hok; exact absurd hok (by simp)
  · rw [if_neg hfk] at hok
    simp only [Except.ok.injEq, Prod.mk.injEq] at hok
    rw [← hok.1]
    show (getCliente (VentaRepository.revertirDeudaCliente
        (VentaRepository.revertirStockItems s venta.get_items_con_stock now) venta now)
        cid).map Cliente.deuda_total = some (cliente.deuda_total - venta.resto)
    unfold VentaRepository.revertirDeudaCliente
    rw [if_pos hf, hc]
    simp only [hgc1]
    rw [getCliente_updateCliente
        (VentaRepository.revertirStockItems s venta.get_items_con_stock now) cid cid
        (fun c => { c with deuda_total := c.deuda_total - venta.resto
                           fecha_actualizacion := some now })
        (fun c => rfl), hgc1]
    have hcid : cliente.id = cid := (find?_key_mem Cliente.id cid s.clientes cliente hcl).2
    simp [hcid]

/-- C6 witness: creating a credit sale of total 200 for a customer with
debt 0 brings the cached debt to 200 (`c6_s1`); deleting the sale — legal
here because no payment row references it — succeeds and brings the debt
back to 0, subtracting the sale's current resto of 200. -/
theorem c6_delete_sale_reverses_current_resto_witness :
    (getCliente c6_s1 1).map Cliente.deuda_total = some 200 ∧
    VentaRepository.eliminar c6_s1 1 2 = .ok (c6_s3, true) ∧
    (getCliente c6_s3 1).map Cliente.deuda_total = some 0 := by
  have hok : VentaRepository.eliminar c6_s1 1 2 = .ok (c6_s3, true) := by
    norm_num [c6_s1, c6_s0, c6_s3, c6_venta, VentaRepository.crear, VentaRepository.eliminar,
      getVenta, getCliente, VentaRepository.descontarStockItems,
      VentaRepository.revertirStockItems, VentaRepository.revertirDeudaCliente,
      Venta.calcular_totales, Venta.get_items_con_stock, actualizarDeudaOpcional,
      ClienteRepository.actualizar_deuda, updateCliente]
  have hv1 : getVenta c6_s1 1 =
      some ⟨1, 0, some 1, [⟨none, 200, 1, 200, false⟩], 200, true, 0, 200, false, none⟩ := by
    norm_num [c6_s1, c6_s0, c6_venta, VentaRepository.crear, getVenta, getCliente,
      VentaRepository.descontarStockItems, Venta.calcular_totales, Venta.get_items_con_stock,
      actualizarDeudaOpcional, ClienteRepository.actualizar_deuda, updateCliente]
  have hcl1 : getCliente c6_s1 1 = some ⟨1, "c", 1000, 200, true, some 0⟩ := by
    norm_num [c6_s1, c6_s0, c6_venta, VentaRepository.crear, getVenta, getCliente,
      VentaRepository.descontarStockItems, Venta.calcular_totales, Venta.get_items_con_stock,
      actualizarDeudaOpcional, ClienteRepository.actualizar_deuda, updateCliente]
  refine ⟨by rw [hcl1]; rfl, hok, ?_⟩
  have h := c6_delete_sale_reverses_current_resto c6_s1 1 _ 1 _ 2 c6_s3 hv1 rfl rfl hcl1 hok
  rw [h]
  norm_num

/-! ## C10 — no credit-limit enforcement on sale creation -/

/-- C10: `VentaRepository.crear` consults no credit limit: for a credit
sale with a customer it unconditionally increases the customer's cached
debt by the sale's resto and persists the sale, even when
`Cliente.puede_fiar` is false for that amount (the cached debt then
exceeds `limite_credito`). -/
theorem c10_create_credit_sale_ignores_limit (s : Store) (venta : Venta) (cid : Nat)
    (cliente : Cliente) (now : Int)
    (hf : venta.es_fiado = true) (hc : venta.cliente_id = some cid)
    (hcl : getCliente s cid = some cliente)
    (hlim : cliente.puede_fiar (Venta.calcular_totales now venta).resto = false) :
    (getCliente (VentaRepository.crear s venta now).1 cid).map Cliente.deuda_total =
      some (cliente.deuda_total + (Venta.calcular_totales now venta).resto) ∧
    (VentaRepository.crear s venta now).2 ∈ (VentaRepository.crear s venta now).1.ventas := by
  have hgc1 : getCliente (VentaRepository.descontarStockItems s
      (Venta.calcular_totales now venta).get_items_con_stock now) cid = some cliente := by
    unfold getCliente
    rw [(descontarStockItems_fields (Venta.calcular_totales now venta).get_items_con_stock
      s now).1]
    exact hcl
  constructor
  · simp only [VentaRepository.crear]
    show (getCliente (if (Venta.calcular_totales now venta).es_fiado then
        actualizarDeudaOpcional _ (Venta.calcular_totales now venta).cliente_id
          (Venta.calcular_totales now venta).resto now
      else _) cid).map Cliente.deuda_total = _
    have hf1 : (Venta.calcular_totales now venta).es_fiado = true := hf
    have hc1 : (Venta.calcular_totales now venta).cliente_id = some cid := hc
    rw [if_pos hf1, hc1]
    show (getCliente (ClienteRepository.actualizar_deuda _ cid
      (Venta.calcular_totales now venta).resto now) cid).map Cliente.deuda_total = _
    unfold ClienteRepository.actualizar_deuda
    simp only [hgc1]
    rw [getCliente_updateCliente
        (VentaRepository.descontarStockItems s
          (Venta.calcular_totales now venta).get_items_con_stock now) cid cid
        (fun c => { c with deuda_total := c.deuda_total + (Venta.calcular_totales now venta).resto
                           fecha_actualizacion := some now })
        (fun c => rfl), hgc1]
    have hcid : cliente.id = cid := (find?_key_mem Cliente.id cid s.clientes cliente hcl).2
    simp [hcid]
  · show _ ∈ _ ++ [(VentaRepository.crear s venta now).2]
    exact List.mem_append_right _ (List.mem_singleton_self _)

/-- C10 witness: customer with limit 100 and debt 90; a credit sale of
total 50 (puede_fiar = false for 50) is still created and the cached debt
becomes 140, exceeding the limit. -/
theorem c10_create_credit_sale_ignores_limit_witness :
    c10_cliente.puede_fiar (Venta.calcular_totales 0 c10_venta).resto = false ∧
    (getCliente (VentaRepository.crear c10_store c10_venta 0).1 1).map Cliente.deuda_total =
      some 140 ∧
    (VentaRepository.crear c10_store c10_venta 0).2 ∈
      (VentaRepository.crear c10_store c10_venta 0).1.ventas := by
  have hlim : c10_cliente.puede_fiar (Venta.calcular_totales 0 c10_venta).resto = false := by
    norm_num [Cliente.puede_fiar, c10_cliente, c10_venta, Venta.calcular_totales]
  have h := c10_create_credit_sale_ignores_limit c10_store c10_venta 1 c10_cliente 0
    rfl rfl rfl hlim
  refine ⟨hlim, h.1.trans ?_, h.2⟩
  norm_num [c10_cliente, c10_venta, Venta.calcular_totales]

/-! ## C7 — reconciliation idempotence -/

theorem mem_insertOrdered {α : Type} (le : α → α → Bool) (x y : α) (l : List α) :
    y ∈ insertOrdered le x l ↔ y = x ∨ y ∈ l := by
  induction l with
  | nil => simp [insertOrdered]
  | cons z zs ih =>
    unfold insertOrdered
    by_cases h : le x z = true
    · simp [h]
    · rw [if_neg h]
      simp only [List.mem_cons, ih]
      tauto

theorem mem_orderBy {α : Type} (le : α → α → Bool) (y : α) (l : List α) :
    y ∈ orderBy le l ↔ y ∈ l := by
  induction l with
  | nil => simp [orderBy]
  | cons z zs ih =>
    show y ∈ insertOrdered le z (orderBy le zs) ↔ _
    rw [mem_insertOrdered, ih, List.mem_cons]

/-- C7: running the debt-reconciliation batch job twice in a row with no
intervening mutation reports zero corrected customers on the second run:
the first run leaves every active customer's cached debt within the 0.01
tolerance of the recomputed debt, and the recomputed debts themselves only
depend on the (untouched) sales table. -/
theorem c7_sync_all_idempotent (s : Store) (now now2 : Int) :
    ((ClienteRepository.sincronizar_todas_las_deudas
      (ClienteRepository.sincronizar_todas_las_deudas s now).1 now2).2).clientes_corregidos
      = 0 := by
  set s1 := (ClienteRepository.sincronizar_todas_las_deudas s now).1 with hs1
  have hkey : ∀ c' ∈ s1.clientes, c'.activo = true →
      ClienteRepository.necesitaCorreccion s1 c' = false := by
    intro c' hmem hact
    rcases List.mem_map.1 hmem with ⟨c, hc, hceq⟩
    by_cases hcond : (c.activo && ClienteRepository.necesitaCorreccion s c) = true
    · rw [if_pos hcond] at hceq
      subst hceq
      unfold ClienteRepository.necesitaCorreccion
      have hid : ClienteRepository.calcular_deuda_real s1
          ({ c with deuda_total := ClienteRepository.calcular_deuda_real s c.id
                    fecha_actualizacion := some now } : Cliente).id =
          ClienteRepository.calcular_deuda_real s c.id := rfl
      rw [hid]
      simp
    · rw [if_neg hcond] at hceq
      subst hceq
      have hno : ClienteRepository.necesitaCorreccion s c = false := by
        cases h1 : ClienteRepository.necesitaCorreccion s c
        · rfl
        · exact absurd (by rw [hact, h1]; rfl) hcond
      exact hno
  show (List.filter (ClienteRepository.necesitaCorreccion s1)
      (ClienteRepository.listar_activos s1)).length = 0
  rw [List.length_eq_zero, List.filter_eq_nil_iff]
  intro c' hc'
  have hmem := (mem_orderBy _ c' _).1 hc'
  have h1 : c' ∈ s1.clientes := List.mem_of_mem_filter hmem
  have h2 : c'.activo = true := by simpa using List.of_mem_filter hmem
  simp [hkey c' h1 h2]

/-! ## Characterizations of the ledger operations -/

theorem crear_venta_fields (s : Store) (venta : Venta) (now : Int) :
    (VentaRepository.crear s venta now).1.ventas
        = s.ventas ++ [(VentaRepository.crear s venta now).2] ∧
    (VentaRepository.crear s venta now).1.abonos = s.abonos ∧
    (VentaRepository.crear s venta now).1.next_venta_id = s.next_venta_id + 1 ∧
    (VentaRepository.crear s venta now).1.next_abono_id = s.next_abono_id ∧
    (VentaRepository.crear s venta now).2
        = { Venta.calcular_totales now venta with id := s.next_venta_id } := by
  have hd := descontarStockItems_fields (Venta.calcular_totales now venta).get_items_con_stock
    s now
  simp only [VentaRepository.crear]
  by_cases hf : (Venta.calcular_totales now venta).es_fiado = true
  · rw [if_pos hf]
    have ha := actualizarDeudaOpcional_fields
      (VentaRepository.descontarStockItems s
        (Venta.calcular_totales now venta).get_items_con_stock now)
      (Venta.calcular_totales now venta).cliente_id (Venta.calcular_totales now venta).resto now
    refine ⟨?_, ?_, ?_, ?_, ?_⟩
    · rw [ha.2.1, hd.2.1]
    · rw [ha.2.2.1, hd.2.2.1]
    · rw [ha.2.2.2.1, hd.2.2.2.1]
    · rw [ha.2.2.2.2, hd.2.2.2.2]
    · rw [ha.2.2.2.1, hd.2.2.2.1]
  · rw [if_neg hf]
    refine ⟨?_, ?_, ?_, ?_, ?_⟩
    · rw [hd.2.1]
    · rw [hd.2.2.1]
    · rw [hd.2.2.2.1]
    · rw [hd.2.2.2.2]
    · rw [hd.2.2.2.1]

theorem crear_abono_ok_inv (s : Store) (vid : Nat) (monto : ℚ) (now : Int) (s' : Store)
    (a : Abono) (h : AbonoRepository.crear s vid monto now = .ok (s', a)) :
    ∃ venta, getVenta s vid = some venta ∧ venta.es_fiado = true ∧ 0 < monto ∧
      monto ≤ venta.total - VentaRepository.calcular_abonado s vid ∧
      a = (⟨s.next_abono_id, vid, monto, now⟩ : Abono) ∧
      s' = actualizarDeudaOpcional
        (updateVenta
          { s with abonos := s.abonos ++ [(⟨s.next_abono_id, vid, monto, now⟩ : Abono)]
                   next_abono_id := s.next_abono_id + 1 }
          vid (fun _ => Venta.calcular_totales now
            { venta with abonado := VentaRepository.calcular_abonado s vid + monto }))
        venta.cliente_id (-monto) now := by
  unfold AbonoRepository.crear at h
  cases hv : getVenta s vid with
  | none => rw [hv] at h; exact absurd h (by simp)
  | some venta =>
    rw [hv] at h
    simp only [] at h
    refine ⟨venta, rfl, ?_⟩
    by_cases hf : venta.es_fiado = true
    · rw [if_neg (by simp [hf])] at h
      by_cases hm : monto ≤ 0
      · rw [if_pos hm] at h; exact absurd h (by simp)
      · rw [if_neg hm] at h
        by_cases hx : venta.total - VentaRepository.calcular_abonado s vid < monto
        · rw [if_pos hx] at h; exact absurd h (by simp)
        · rw [if_neg hx] at h
          simp only [Except.ok.injEq, Prod.mk.injEq] at h
          exact ⟨hf, not_le.1 hm, not_lt.1 hx, h.2.symm, h.1.symm⟩
    · rw [if_pos (by simp [hf])] at h
      exact absurd h (by simp)

theorem calcular_abonado_append_store (s t : Store) (A : Abono) (k : Nat)
    (h : t.abonos = s.abonos ++ [A]) :
    VentaRepository.calcular_abonado t k =
      VentaRepository.calcular_abonado s k + (if A.venta_id = k then A.monto else 0) := by
  unfold VentaRepository.calcular_abonado
  rw [h, sum_montos_filter_append, sum_montos_singleton]

theorem calcular_abonado_erase_store (s t : Store) (aid k : Nat) (a : Abono)
    (ht : t.abonos = s.abonos.filter (fun x => !(x.id == aid)))
    (hmono : s.abonos.Pairwise (fun x y => x.id < y.id))
    (hfind : getAbono s aid = some a) :
    VentaRepository.calcular_abonado t k =
      VentaRepository.calcular_abonado s k - (if a.venta_id = k then a.monto else 0) := by
  unfold VentaRepository.calcular_abonado
  rw [ht]
  exact sum_montos_filter_erase s.abonos aid k a hmono hfind

theorem eliminar_abono_none_abono (s : Store) (aid : Nat) (now : Int)
    (ha : getAbono s aid = none) : (AbonoRepository.eliminar s aid now).1 = s := by
  simp only [AbonoRepository.eliminar, ha]

theorem eliminar_abono_none_venta (s : Store) (aid : Nat) (now : Int) (abono : Abono)
    (ha : getAbono s aid = some abono) (hv : getVenta s abono.venta_id = none) :
    (AbonoRepository.eliminar s aid now).1 = s := by
  simp only [AbonoRepository.eliminar, ha, hv]

theorem eliminar_abono_some_fields (s : Store) (aid : Nat) (now : Int) (abono : Abono)
    (venta : Venta) (ha : getAbono s aid = some abono)
    (hv : getVenta s abono.venta_id = some venta) :
    (AbonoRepository.eliminar s aid now).1.ventas
        = s.ventas.map (fun v => if v.id == abono.venta_id then
            Venta.calcular_totales now { venta with abonado := venta.abonado - abono.monto }
          else v) ∧
    (AbonoRepository.eliminar s aid now).1.abonos
        = s.abonos.filter (fun x => !(x.id == aid)) ∧
    (AbonoRepository.eliminar s aid now).1.next_venta_id = s.next_venta_id ∧
    (AbonoRepository.eliminar s aid now).1.next_abono_id = s.next_abono_id := by
  simp only [AbonoRepository.eliminar, ha, hv]
  have h1 := actualizarDeudaOpcional_fields
    (updateVenta s abono.venta_id (fun _ =>
      Venta.calcular_totales now { venta with abonado := venta.abonado - abono.monto }))
    venta.cliente_id abono.monto now
  refine ⟨?_, ?_, ?_, ?_⟩
  · rw [h1.2.1]; rfl
  · rw [h1.2.2.1]; rfl
  · rw [h1.2.2.2.1]; rfl
  · rw [h1.2.2.2.2]; rfl

/-! ## The reachable-state invariant -/

theorem reachable_wf : ∀ {s : Store}, Reachable s → WF s := by
  intro s h
  induction h with
  | empty =>
    exact ⟨fun v hv => absurd hv (List.not_mem_nil v), List.Pairwise.nil,
      fun a ha => absurd ha (List.not_mem_nil a), fun a ha => absurd ha (List.not_mem_nil a),
      fun v hv => absurd hv (List.not_mem_nil v), fun v hv => absurd hv (List.not_mem_nil v)⟩
  | crearCliente s c hr ih =>
    exact ⟨ih.ventas_id_lt, ih.abonos_id_mono, ih.abonos_id_lt, ih.abonos_venta_lt,
      ih.ledger, ih.conserva⟩
  | crearProducto s p hr ih =>
    exact ⟨ih.ventas_id_lt, ih.abonos_id_mono, ih.abonos_id_lt, ih.abonos_venta_lt,
      ih.ledger, ih.conserva⟩
  | crearVenta s venta now hr hab ih =>
    have hcf := crear_venta_fields s venta now
    refine ⟨?_, ?_, ?_, ?_, ?_, ?_⟩
    · intro v hv
      rw [hcf.1] at hv
      rw [hcf.2.2.1]
      rcases List.mem_append.1 hv with h1 | h1
      · exact Nat.lt_succ_of_lt (ih.ventas_id_lt v h1)
      · rw [List.mem_singleton.1 h1, hcf.2.2.2.2]
        exact Nat.lt_succ_self _
    · rw [hcf.2.1]; exact ih.abonos_id_mono
    · intro a ha
      rw [hcf.2.1] at ha
      rw [hcf.2.2.2.1]
      exact ih.abonos_id_lt a ha
    · intro a ha
      rw [hcf.2.1] at ha
      rw [hcf.2.2.1]
      exact Nat.lt_succ_of_lt (ih.abonos_venta_lt a ha)
    · intro v hv
      rw [hcf.1] at hv
      rw [calcular_abonado_congr s _ hcf.2.1 v.id]
      rcases List.mem_append.1 hv with h1 | h1
      · exact ih.ledger v h1
      · rw [List.mem_singleton.1 h1, hcf.2.2.2.2]
        show VentaRepository.calcular_abonado s s.next_venta_id = venta.abonado
        rw [hab]
        exact calcular_abonado_eq_zero s _ (fun a ha => Nat.ne_of_lt (ih.abonos_venta_lt a ha))
    · intro v hv
      rw [hcf.1] at hv
      rcases List.mem_append.1 hv with h1 | h1
      · exact ih.conserva v h1
      · rw [List.mem_singleton.1 h1, hcf.2.2.2.2]
        exact calcular_totales_conserva now venta
  | crearAbono s vid monto now s' a hr hok ih =>
    obtain ⟨venta, hv, hf, hm, hx, ha_eq, hs'⟩ := crear_abono_ok_inv s vid monto now s' a hok
    have hvm := find?_key_mem Venta.id vid s.ventas venta hv
    have hfields := actualizarDeudaOpcional_fields
      (updateVenta
        { s with abonos := s.abonos ++ [(⟨s.next_abono_id, vid, monto, now⟩ : Abono)]
                 next_abono_id := s.next_abono_id + 1 }
        vid (fun _ => Venta.calcular_totales now
          { venta with abonado := VentaRepository.calcular_abonado s vid + monto }))
      venta.cliente_id (-monto) now
    have hsv : s'.ventas = s.ventas.map (fun v =>
        if v.id == vid then Venta.calcular_totales now
          { venta with abonado := VentaRepository.calcular_abonado s vid + monto }
        else v) := by
      rw [hs', hfields.2.1]; rfl
    have hsa : s'.abonos = s.abonos ++ [(⟨s.next_abono_id, vid, monto, now⟩ : Abono)] := by
      rw [hs', hfields.2.2.1]; rfl
    have hnv : s'.next_venta_id = s.next_venta_id := by
      rw [hs', hfields.2.2.2.1]; rfl
    have hna : s'.next_abono_id = s.next_abono_id + 1 := by
      rw [hs', hfields.2.2.2.2]; rfl
    refine ⟨?_, ?_, ?_, ?_, ?_, ?_⟩
    · intro v hv'
      rw [hsv] at hv'
      rw [hnv]
      rcases mem_key_map_update Venta.id _ vid s.ventas v hv' with ⟨h1, _⟩ | h1
      · exact ih.ventas_id_lt v h1
      · rw [h1]
        show venta.id < s.next_venta_id
        exact ih.ventas_id_lt venta hvm.1
    · rw [hsa]
      refine List.pairwise_append.2 ⟨ih.abonos_id_mono, List.pairwise_singleton _ _, ?_⟩
      intro x hx y hy
      rw [List.mem_singleton.1 hy]
      exact ih.abonos_id_lt x hx
    · intro b hb
      rw [hsa] at hb
      rw [hna]
      rcases List.mem_append.1 hb with h1 | h1
      · exact Nat.lt_succ_of_lt (ih.abonos_id_lt b h1)
      · rw [List.mem_singleton.1 h1]
        exact Nat.lt_succ_self _
    · intro b hb
      rw [hsa] at hb
      rw [hnv]
      rcases List.mem_append.1 hb with h1 | h1
      · exact ih.abonos_venta_lt b h1
      · rw [List.mem_singleton.1 h1]
        show vid < s.next_venta_id
        rw [← hvm.2]
        exact ih.ventas_id_lt venta hvm.1
    · intro v hv'
      rw [hsv] at hv'
      rw [calcular_abonado_append_store s s' _ v.id hsa]
      rcases mem_key_map_update Venta.id _ vid s.ventas v hv' with ⟨h1, h2⟩ | h1
      · rw [if_neg (fun hh => h2 hh.symm), add_zero]
        exact ih.ledger v h1
      · rw [h1]
        show VentaRepository.calcular_abonado s venta.id +
            (if vid = venta.id then monto else 0) =
          VentaRepository.calcular_abonado s vid + monto
        rw [hvm.2, if_pos rfl]
    · intro v hv'
      rw [hsv] at hv'
      rcases mem_key_map_update Venta.id _ vid s.ventas v hv' with ⟨h1, _⟩ | h1
      · exact ih.conserva v h1
      · rw [h1]
        exact calcular_totales_conserva now _
  | eliminarAbono s aid now hr ih =>
    cases ha : getAbono s aid with
    | none => rw [eliminar_abono_none_abono s aid now ha]; exact ih
    | some abono =>
      cases hgv : getVenta s abono.venta_id with
      | none => rw [eliminar_abono_none_venta s aid now abono ha hgv]; exact ih
      | some venta =>
        have hef := eliminar_abono_some_fields s aid now abono venta ha hgv
        have hvm := find?_key_mem Venta.id abono.venta_id s.ventas venta hgv
        refine ⟨?_, ?_, ?_, ?_, ?_, ?_⟩
        · intro v hv'
          rw [hef.1] at hv'
          rw [hef.2.2.1]
          rcases mem_key_map_update Venta.id _ abono.venta_id s.ventas v hv' with ⟨h1, _⟩ | h1
          · exact ih.ventas_id_lt v h1
          · rw [h1]
            show venta.id < s.next_venta_id
            exact ih.ventas_id_lt venta hvm.1
        · rw [hef.2.1]
          exact List.Pairwise.sublist (List.filter_sublist _) ih.abonos_id_mono
        · intro b hb
          rw [hef.2.1] at hb
          rw [hef.2.2.2]
          exact ih.abonos_id_lt b (List.mem_of_mem_filter hb)
        · intro b hb
          rw [hef.2.1] at hb
          rw [hef.2.2.1]
          exact ih.abonos_venta_lt b (List.mem_of_mem_filter hb)
        · intro v hv'
          rw [hef.1] at hv'
          rw [calcular_abonado_erase_store s _ aid v.id abono hef.2.1 ih.abonos_id_mono ha]
          rcases mem_key_map_update Venta.id _ abono.venta_id s.ventas v hv' with ⟨h1, h2⟩ | h1
          · rw [if_neg (fun hh => h2 hh.symm), sub_zero]
            exact ih.ledger v h1
          · rw [h1]
            show VentaRepository.calcular_abonado s venta.id -
                (if abono.venta_id = venta.id then abono.monto else 0) =
              venta.abonado - abono.monto
            rw [ih.ledger venta hvm.1, if_pos hvm.2.symm]
        · intro v hv'
          rw [hef.1] at hv'
          rcases mem_key_map_update Venta.id _ abono.venta_id s.ventas v hv' with ⟨h1, _⟩ | h1
          · exact ih.conserva v h1
          · rw [h1]
            exact calcular_totales_conserva now _
  | eliminarVenta s vid now s' b hr hok ih =>
    cases b with
    | false =>
      rw [eliminar_venta_ok_false_inv s vid now s' hok]
      exact ih
    | true =>
      obtain ⟨hnoab, venta, hgv, hventas, habonos, hnv, hna⟩ :=
        eliminar_venta_ok_true_inv s vid now s' hok
      refine ⟨?_, ?_, ?_, ?_, ?_, ?_⟩
      · intro v hv'
        rw [hventas] at hv'
        rw [hnv]
        exact ih.ventas_id_lt v (List.mem_of_mem_filter hv')
      · rw [habonos]; exact ih.abonos_id_mono
      · intro b' hb
        rw [habonos] at hb
        rw [hna]
        exact ih.abonos_id_lt b' hb
      · intro b' hb
        rw [habonos] at hb
        rw [hnv]
        exact ih.abonos_venta_lt b' hb
      · intro v hv'
        rw [hventas] at hv'
        rw [calcular_abonado_congr s s' habonos v.id]
        exact ih.ledger v (List.mem_of_mem_filter hv')
      · intro v hv'
        rw [hventas] at hv'
        exact ih.conserva v (List.mem_of_mem_filter hv')
  | sincronizar s now hr ih =>
    exact ⟨ih.ventas_id_lt, ih.abonos_id_mono, ih.abonos_id_lt, ih.abonos_venta_lt,
      ih.ledger, ih.conserva⟩

/-! ## C5 — conservation invariant -/

/-- C5: in every store reachable through the ledger operations (sale
creation, payment recording, payment deletion, sale deletion,
reconciliation), every sale satisfies `abonado + resto = total` exactly:
every operation that writes a sale routes it through `calcular_totales`,
which re-establishes `resto = total − abonado`. -/
theorem c5_conservation_invariant (s : Store) (h : Reachable s) (v : Venta)
    (hv : v ∈ s.ventas) : v.abonado + v.resto = v.total :=
  (reachable_wf h).conserva v hv

/-- C5 witness: the store reached from the empty database by creating the
sale `c5_venta` satisfies the conservation equation for the created sale. -/
theorem c5_conservation_invariant_witness :
    (VentaRepository.crear ⟨[], [], [], [], 1, 1⟩ c5_venta 0).2.abonado +
      (VentaRepository.crear ⟨[], [], [], [], 1, 1⟩ c5_venta 0).2.resto =
      (VentaRepository.crear ⟨[], [], [], [], 1, 1⟩ c5_venta 0).2.total :=
  c5_conservation_invariant _ (Reachable.crearVenta _ c5_venta 0 Reachable.empty rfl) _
    (List.mem_append_right _ (List.mem_singleton_self _))

/-! ## C8 — ledger consistency invariant -/

/-- C8: in every store reachable through the ledger operations, every
sale's cached `abonado` equals the sum of the payments recorded against it:
payment insertion resets the cache to ledger-sum + amount, payment deletion
subtracts exactly the removed amount, sale creation starts at 0 with no
payments, and the other operations leave both sides untouched. -/
theorem c8_ledger_consistency_invariant (s : Store) (h : Reachable s) (v : Venta)
    (hv : v ∈ s.ventas) : VentaRepository.calcular_abonado s v.id = v.abonado :=
  (reachable_wf h).ledger v hv

/-- C8 witness: in the store reached from the empty database by creating
`c5_venta`, the created sale's ledger sum equals its cached `abonado`. -/
theorem c8_ledger_consistency_invariant_witness :
    VentaRepository.calcular_abonado (VentaRepository.crear ⟨[], [], [], [], 1, 1⟩ c5_venta 0).1
      (VentaRepository.crear ⟨[], [], [], [], 1, 1⟩ c5_venta 0).2.id =
      (VentaRepository.crear ⟨[], [], [], [], 1, 1⟩ c5_venta 0).2.abonado :=
  c8_ledger_consistency_invariant _ (Reachable.crearVenta _ c5_venta 0 Reachable.empty rfl) _
    (List.mem_append_right _ (List.mem_singleton_self _))

/-! ## C4 (amended) — round trip on consistent stores -/

theorem find?_append_fresh {α : Type} (p : α → Bool) (l : List α) (x : α)
    (hl : ∀ y ∈ l, ¬ p y = true) (hx : p x = true) :
    (l ++ [x]).find? p = some x := by
  induction l with
  | nil => exact List.find?_cons_of_pos _ hx
  | cons z zs ih =>
    rw [List.cons_append, List.find?_cons_of_neg _ (hl z (List.mem_cons_self z zs))]
    exact ih (fun y hy => hl y (List.mem_cons_of_mem z hy))

theorem getCliente_actualizar_deuda (s : Store) (cid : Nat) (monto : ℚ) (now : Int) (k : Nat) :
    getCliente (ClienteRepository.actualizar_deuda s cid monto now) k =
      (getCliente s k).map (fun c =>
        if c.id == cid then
          { c with deuda_total := c.deuda_total + monto, fecha_actualizacion := some now }
        else c) := by
  unfold ClienteRepository.actualizar_deuda
  cases hc : getCliente s cid with
  | some c0 =>
    exact getCliente_updateCliente s cid k _ (fun c => rfl)
  | none =>
    cases hk : getCliente s k with
    | none => rfl
    | some c =>
      have hcid : c.id = k := (find?_key_mem Cliente.id k s.clientes c hk).2
      have hkc : ¬ k = cid := by
        intro hkk
        rw [hkk] at hk
        rw [hk] at hc
        cases hc
      simp [hcid, hkc]

theorem getCliente_actualizarOpcional (s : Store) (ocid : Option Nat) (monto : ℚ)
    (now : Int) (k : Nat) :
    getCliente (actualizarDeudaOpcional s ocid monto now) k =
      (getCliente s k).map (fun c =>
        if some c.id = ocid then
          { c with deuda_total := c.deuda_total + monto, fecha_actualizacion := some now }
        else c) := by
  cases ocid with
  | none =>
    show getCliente s k = (getCliente s k).map _
    cases getCliente s k with
    | none => rfl
    | some c => simp
  | some cid =>
    show getCliente (ClienteRepository.actualizar_deuda s cid monto now) k = _
    rw [getCliente_actualizar_deuda]
    cases getCliente s k with
    | none => rfl
    | some c =>
      rw [Option.map_some', Option.map_some']
      congr 1
      by_cases h : c.id = cid
      · rw [if_pos (by simpa using h), if_pos (by rw [h])]
      · rw [if_neg (by simpa using h), if_neg (by simp [h])]

theorem eliminar_abono_some_getCliente (s : Store) (aid : Nat) (now : Int) (abono : Abono)
    (venta : Venta) (ha : getAbono s aid = some abono)
    (hv : getVenta s abono.venta_id = some venta) (k : Nat) :
    getCliente (AbonoRepository.eliminar s aid now).1 k =
      (getCliente s k).map (fun c =>
        if some c.id = venta.cliente_id then
          { c with deuda_total := c.deuda_total + abono.monto, fecha_actualizacion := some now }
        else c) := by
  simp only [AbonoRepository.eliminar, ha, hv]
  show getCliente (actualizarDeudaOpcional
    (updateVenta s abono.venta_id (fun _ =>
      Venta.calcular_totales now { venta with abonado := venta.abonado - abono.monto }))
    venta.cliente_id abono.monto now) k = _
  rw [getCliente_actualizarOpcional]
  rfl

/-- C4 (amended): recording a payment and immediately deleting it restores
the sale's cached `abonado` and `resto` and every customer's cached debt
exactly, provided the sale's caches were consistent beforehand: `abonado`
equal to the ledger sum, `total` equal to the line-item sum, `resto =
total − abonado`, and the payment-id counter fresh — the conditions every
reachable store satisfies. -/
theorem c4_record_delete_roundtrip_of_consistent (s : Store) (vid : Nat) (v : Venta)
    (monto : ℚ) (now now2 : Int) (s' : Store) (a : Abono)
    (hv : getVenta s vid = some v)
    (hab : v.abonado = VentaRepository.calcular_abonado s vid)
    (htot : v.total = (v.productos.map ItemVenta.subtotal).sum)
    (hres : v.resto = v.total - v.abonado)
    (hfresh : ∀ b ∈ s.abonos, b.id ≠ s.next_abono_id)
    (hok : AbonoRepository.crear s vid monto now = .ok (s', a)) :
    (getVenta (AbonoRepository.eliminar s' a.id now2).1 vid).map Venta.abonado
        = some v.abonado ∧
    (getVenta (AbonoRepository.eliminar s' a.id now2).1 vid).map Venta.resto
        = some v.resto ∧
    ∀ k, (getCliente (AbonoRepository.eliminar s' a.id now2).1 k).map Cliente.deuda_total
        = (getCliente s k).map Cliente.deuda_total := by
  obtain ⟨venta, hv0, hf, hm, hx, ha_eq, hs'⟩ := crear_abono_ok_inv s vid monto now s' a hok
  have hvv : venta = v := Option.some.inj (hv0.symm.trans hv)
  subst hvv
  have hvm := find?_key_mem Venta.id vid s.ventas venta hv
  have haid : a.id = s.next_abono_id := by rw [ha_eq]
  have havid : a.venta_id = vid := by rw [ha_eq]
  have hamonto : a.monto = monto := by rw [ha_eq]
  have hfields := actualizarDeudaOpcional_fields
    (updateVenta
      { s with abonos := s.abonos ++ [(⟨s.next_abono_id, vid, monto, now⟩ : Abono)]
               next_abono_id := s.next_abono_id + 1 }
      vid (fun _ => Venta.calcular_totales now
        { venta with abonado := VentaRepository.calcular_abonado s vid + monto }))
    venta.cliente_id (-monto) now
  have hsa : s'.abonos = s.abonos ++ [(⟨s.next_abono_id, vid, monto, now⟩ : Abono)] := by
    rw [hs', hfields.2.2.1]; rfl
  have hsv : s'.ventas = s.ventas.map (fun w =>
      if w.id == vid then Venta.calcular_totales now
        { venta with abonado := VentaRepository.calcular_abonado s vid + monto }
      else w) := by
    rw [hs', hfields.2.1]; rfl
  have ha' : getAbono s' a.id = some a := by
    unfold getAbono
    rw [hsa, ha_eq]
    refine find?_append_fresh _ s.abonos _ ?_ (by simp)
    intro y hy
    simp only [Bool.not_eq_true]
    exact beq_eq_false_iff_ne.2 (hfresh y hy)
  have hv0' : s.ventas.find? (fun w => w.id == vid) = some venta := hv
  have hw2 : Venta.id (Venta.calcular_totales now
      { venta with abonado := VentaRepository.calcular_abonado s vid + monto }) = vid := hvm.2
  have hv' : getVenta s' vid = some (Venta.calcular_totales now
      { venta with abonado := VentaRepository.calcular_abonado s vid + monto }) := by
    unfold getVenta
    rw [hsv, find?_key_map_update Venta.id _ vid vid s.ventas hw2, if_pos rfl, hv0']
    rfl
  have hv'' : getVenta s' a.venta_id = some (Venta.calcular_totales now
      { venta with abonado := VentaRepository.calcular_abonado s vid + monto }) := by
    rw [havid]; exact hv'
  have hef := eliminar_abono_some_fields s' a.id now2 a _ ha' hv''
  have hgcli := eliminar_abono_some_getCliente s' a.id now2 a _ ha' hv''
  rw [havid] at hef
  have hw3 : Venta.id (Venta.calcular_totales now2
      { (Venta.calcular_totales now
          { venta with abonado := VentaRepository.calcular_abonado s vid + monto }) with
        abonado := (Venta.calcular_totales now
          { venta with abonado := VentaRepository.calcular_abonado s vid + monto }).abonado
            - a.monto }) = vid := hvm.2
  have hfinal : getVenta (AbonoRepository.eliminar s' a.id now2).1 vid =
      some (Venta.calcular_totales now2
        { (Venta.calcular_totales now
            { venta with abonado := VentaRepository.calcular_abonado s vid + monto }) with
          abonado := (Venta.calcular_totales now
            { venta with abonado := VentaRepository.calcular_abonado s vid + monto }).abonado
              - a.monto }) := by
    unfold getVenta
    rw [hef.1, find?_key_map_update Venta.id _ vid vid s'.ventas hw3, if_pos rfl]
    have hv'0 : s'.ventas.find? (fun w => w.id == vid) = some (Venta.calcular_totales now
        { venta with abonado := VentaRepository.calcular_abonado s vid + monto }) := hv'
    rw [hv'0]
    rfl
  have h1 : (Venta.calcular_totales now2
      { (Venta.calcular_totales now
          { venta with abonado := VentaRepository.calcular_abonado s vid + monto }) with
        abonado := (Venta.calcular_totales now
          { venta with abonado := VentaRepository.calcular_abonado s vid + monto }).abonado
            - a.monto }).abonado = venta.abonado := by
    show VentaRepository.calcular_abonado s vid + monto - a.monto = venta.abonado
    rw [hamonto, hab]
    ring
  have h2 : (Venta.calcular_totales now2
      { (Venta.calcular_totales now
          { venta with abonado := VentaRepository.calcular_abonado s vid + monto }) with
        abonado := (Venta.calcular_totales now
          { venta with abonado := VentaRepository.calcular_abonado s vid + monto }).abonado
            - a.monto }).resto = venta.resto := by
    show (venta.productos.map ItemVenta.subtotal).sum -
        (VentaRepository.calcular_abonado s vid + monto - a.monto) = venta.resto
    rw [hamonto, hres, htot, hab]
    ring
  refine ⟨?_, ?_, ?_⟩
  · rw [hfinal, Option.map_some', h1]
  · rw [hfinal, Option.map_some', h2]
  · intro k
    rw [hgcli k, hs', getCliente_actualizarOpcional]
    have hcc : getCliente (updateVenta
        { s with abonos := s.abonos ++ [(⟨s.next_abono_id, vid, monto, now⟩ : Abono)]
                 next_abono_id := s.next_abono_id + 1 }
        vid (fun _ => Venta.calcular_totales now
          { venta with abonado := VentaRepository.calcular_abonado s vid + monto })) k
        = getCliente s k := rfl
    rw [hcc]
    have hcid2 : (Venta.calcular_totales now
        { venta with abonado := VentaRepository.calcular_abonado s vid + monto }).cliente_id
        = venta.cliente_id := rfl
    rw [hcid2, hamonto]
    cases getCliente s k with
    | none => rfl
    | some c =>
      by_cases hid : some c.id = venta.cliente_id
      · simp only [Option.map_some']
        rw [if_pos hid]
        simp [hid]
      · simp only [Option.map_some']
        rw [if_neg hid]
        simp [hid]

/-- C4 witness: on `consistent_store` (sale 1: total 100, abonado 30,
resto 70, ledger [30], customer debt 70) recording a payment of 10 yields
`c4w_after_crear` with payment id 2; deleting payment 2 restores abonado
30, resto 70 and the customer's cached debt. -/
theorem c4_record_delete_roundtrip_witness :
    (getVenta (AbonoRepository.eliminar c4w_after_crear 2 7).1 1).map Venta.abonado
        = some 30 ∧
    (getVenta (AbonoRepository.eliminar c4w_after_crear 2 7).1 1).map Venta.resto
        = some 70 ∧
    (getCliente (AbonoRepository.eliminar c4w_after_crear 2 7).1 1).map Cliente.deuda_total
        = (getCliente consistent_store 1).map Cliente.deuda_total := by
  have hok : AbonoRepository.crear consistent_store 1 10 5 =
      .ok (c4w_after_crear, (⟨2, 1, 10, 5⟩ : Abono)) := by
    norm_num [AbonoRepository.crear, consistent_store, getVenta,
      VentaRepository.calcular_abonado, updateVenta, Venta.calcular_totales,
      actualizarDeudaOpcional, ClienteRepository.actualizar_deuda, getCliente, updateCliente,
      c4w_after_crear]
  have h := c4_record_delete_roundtrip_of_consistent consistent_store 1 c4w_venta 10 5 7
    c4w_after_crear ⟨2, 1, 10, 5⟩ rfl
    (by norm_num [c4w_venta, consistent_store, VentaRepository.calcular_abonado])
    (by norm_num [c4w_venta])
    (by norm_num [c4w_venta])
    (by decide)
    hok
  exact ⟨h.1, h.2.1, h.2.2 1⟩

end FletBase
